import Mathlib

/-!
# Rhymic: session store and search filter

A shallow embedding of `src/store/authStore.js` (the zustand store holding
`user`, `token`, `error` and the operations `login`, `signup`, `logout`,
`updateAvatar`) and of the search effect of `src/components/Topbar.jsx`.

Modelling conventions.

* JavaScript values are the type `JSVal`.  A finite number is named by its
  decimal text, the string `String(x)`; negative zero, the infinities and NaN
  are values of their own, since `JSON.stringify` does not keep them.
* An `async` operation is run atomically against one answer of the network,
  given as an argument (`Except JSError Response`: the promise of `fetch`
  rejects, or resolves to a response whose `json()` rejects or resolves).
* The operations run in `Op`, a state monad over `World` (store state,
  localStorage, log of effects) in which a thrown error keeps the effects
  made before it, as in JavaScript.
* `localStorage` writes always succeed.  A string holding JSON text is
  represented by the value it denotes (`Text.json`), so `JSON.parse` undoes
  `JSON.stringify` up to what `JSON.stringify` drops or replaces (`toJSON`):
  properties that are `undefined`, numbers that are not finite, negative zero.
* `toLowerCase` follows the Unicode default case conversion: the mapping of
  single characters and the Final_Sigma condition are the platform's and are
  taken as a `CaseTable`; the two rules that are not per character (capital
  sigma, capital I with dot above) are spelled out.
-/

namespace Rhymic

/-! ## JavaScript values -/

/-- A JavaScript number: a finite number other than negative zero, named by
its decimal text `String(x)` (`0`, `7`, `-1.5`, `1e+21`); negative zero;
`Infinity` and `-Infinity`, which is what a JSON number too large for a double
parses to; `NaN`. -/
inductive JSNumber where
  | finite (text : String)
  | negZero
  | infinity (negative : Bool)
  | nan

namespace JSNumber

/-- ToBoolean of a number: false on `0`, `-0` and `NaN`. -/
def truthy : JSNumber → Bool
  | finite text => text != "0"
  | negZero => false
  | infinity _ => true
  | nan => false

/-- ToString of a number. -/
def toStr : JSNumber → String
  | finite text => text
  | negZero => "0"
  | infinity false => "Infinity"
  | infinity true => "-Infinity"
  | nan => "NaN"

/-- The number is written by `JSON.stringify` as a JSON number that
`JSON.parse` reads back as the same number. -/
def isKept : JSNumber → Bool
  | finite _ => true
  | _ => false

end JSNumber

/-- A JavaScript value: `undefined`, `null`, booleans, numbers, strings,
arrays and plain objects (own properties in insertion order). -/
inductive JSVal where
  | undefined
  | null
  | bool (b : Bool)
  | num (x : JSNumber)
  | str (s : String)
  | arr (items : List JSVal)
  | obj (fields : List (String × JSVal))

/-- An `Error` object, as seen by `catch (err)`: only `err.message` is read. -/
structure JSError where
  message : String

namespace JSVal

/-- ToBoolean: the values that `||` and `&&` treat as true. -/
def truthy : JSVal → Bool
  | undefined => false
  | null => false
  | bool b => b
  | num x => x.truthy
  | str s => s != ""
  | arr _ => true
  | obj _ => true

/-- The value is `null` or `undefined`. -/
def isNullish : JSVal → Bool
  | undefined => true
  | null => true
  | _ => false

/-- The operator `a || b`. -/
def or (a b : JSVal) : JSVal :=
  if a.truthy then a else b

mutual
/-- ToString, as applied by template literals, `new Error(message)` and
`localStorage.setItem(key, value)`. -/
def toStr : JSVal → String
  | undefined => "undefined"
  | null => "null"
  | bool b => if b then "true" else "false"
  | num x => x.toStr
  | str s => s
  | arr items => joinItems items
  | obj _ => "[object Object]"
/-- The text of `Array.prototype.join(",")`: `null` and `undefined` elements
give the empty string. -/
def joinItems : List JSVal → String
  | [] => ""
  | [undefined] => ""
  | [null] => ""
  | [v] => toStr v
  | undefined :: rest => "," ++ joinItems rest
  | null :: rest => "," ++ joinItems rest
  | v :: rest => toStr v ++ "," ++ joinItems rest
end

/-- Lookup of an own property of a plain object. -/
def lookup (key : String) : List (String × JSVal) → Option JSVal
  | [] => none
  | (k, v) :: rest => if k = key then some v else lookup key rest

/-- The property read `v.key`, for the keys the program reads (`message`,
`token`, `user`, `url`), none of which is inherited from a prototype: a
`TypeError` on `null` and `undefined`, the own property of an object, and
`undefined` otherwise. -/
def getProp (v : JSVal) (key : String) : Except JSError JSVal :=
  match v with
  | undefined =>
    .error ⟨"Cannot read properties of undefined (reading \x27" ++ key ++ "\x27)"⟩
  | null =>
    .error ⟨"Cannot read properties of null (reading \x27" ++ key ++ "\x27)"⟩
  | obj fields => .ok ((lookup key fields).getD undefined)
  | _ => .ok undefined

/-- The own enumerable properties of the elements `items` starting at index `i`. -/
def indexed (i : Nat) : List JSVal → List (String × JSVal)
  | [] => []
  | v :: rest => (toString i, v) :: indexed (i + 1) rest

/-- The properties copied by the spread `{ ...v }`: those of an object, the
indexed elements of an array or of a string, none for the other values. -/
def spread : JSVal → List (String × JSVal)
  | obj fields => fields
  | arr items => indexed 0 items
  | str s => indexed 0 (s.data.map (fun c => str (String.mk [c])))
  | _ => []

/-- Assignment of an own property: an existing key keeps its place and takes
the new value, a new key goes last. -/
def setField (key : String) (v : JSVal) : List (String × JSVal) → List (String × JSVal)
  | [] => [(key, v)]
  | (k, w) :: rest => if k = key then (k, v) :: rest else (k, w) :: setField key v rest

/-- What `JSON.stringify` keeps of a number: `NaN` and the infinities are
written `null`, negative zero is written `0`. -/
def numToJSON : JSNumber → JSVal
  | .finite text => num (.finite text)
  | .negZero => num (.finite "0")
  | .infinity _ => null
  | .nan => null

mutual
/-- What `JSON.stringify` keeps of a value: properties whose value is
`undefined` are dropped, `undefined` array elements become `null`, numbers
are kept as `numToJSON` tells. -/
def toJSON : JSVal → JSVal
  | num x => numToJSON x
  | arr items => arr (toJSONItems items)
  | obj fields => obj (toJSONFields fields)
  | v => v
/-- The array case of `toJSON`. -/
def toJSONItems : List JSVal → List JSVal
  | [] => []
  | undefined :: rest => null :: toJSONItems rest
  | v :: rest => toJSON v :: toJSONItems rest
/-- The object case of `toJSON`. -/
def toJSONFields : List (String × JSVal) → List (String × JSVal)
  | [] => []
  | (_, undefined) :: rest => toJSONFields rest
  | (k, v) :: rest => (k, toJSON v) :: toJSONFields rest
end

mutual
/-- The value holds no `undefined` anywhere.  The body of a response and the
result of `JSON.parse` are such values. -/
def isJson : JSVal → Bool
  | undefined => false
  | arr items => isJsonItems items
  | obj fields => isJsonFields fields
  | _ => true
/-- The array case of `isJson`. -/
def isJsonItems : List JSVal → Bool
  | [] => true
  | v :: rest => isJson v && isJsonItems rest
/-- The object case of `isJson`. -/
def isJsonFields : List (String × JSVal) → Bool
  | [] => true
  | (_, v) :: rest => isJson v && isJsonFields rest
end

mutual
/-- The value is one `JSON.stringify` writes without loss: no `undefined`
anywhere in it, and no number that is infinite, `NaN` or negative zero. -/
def isKept : JSVal → Bool
  | undefined => false
  | num x => x.isKept
  | arr items => isKeptItems items
  | obj fields => isKeptFields fields
  | _ => true
/-- The array case of `isKept`. -/
def isKeptItems : List JSVal → Bool
  | [] => true
  | v :: rest => isKept v && isKeptItems rest
/-- The object case of `isKept`. -/
def isKeptFields : List (String × JSVal) → Bool
  | [] => true
  | (_, v) :: rest => isKept v && isKeptFields rest
end

end JSVal

/-! ## Strings in localStorage, JSON -/

/-- A string, seen through `JSON.parse`: either JSON text, represented by the
value `JSON.parse` reads from it, or a string that is not JSON text.  The text
`JSON.stringify` writes for a value is read back as what is kept of the value
(`toJSON`), not as the value: an infinite number comes back as `null`. -/
inductive Text where
  | json (v : JSVal)
  | other (s : String)

namespace JSON

/-- The call `JSON.stringify(v)`: `undefined` (here `none`) for `undefined`,
else the JSON text of what is kept of `v`. -/
def stringify : JSVal → Option Text
  | .undefined => none
  | v => some (.json v.toJSON)

/-- The call `JSON.parse(x)` on the result of `localStorage.getItem`: `null`
(here `none`) is read as the text `null`; a string that is not JSON text
throws a `SyntaxError`. -/
def parse : Option Text → Except JSError JSVal
  | none => .ok .null
  | some (.json v) => .ok v
  | some (.other s) => .error ⟨"Unexpected token in JSON: " ++ s⟩

end JSON

/-- The two entries of `localStorage` the program uses: `token`, a string,
and `user`, a string read through `JSON.parse`. -/
structure LocalStorage where
  token : Option String
  user : Option Text

namespace LocalStorage

/-- The call `localStorage.getItem('token')`: the string or `null`. -/
def getItemToken (ls : LocalStorage) : JSVal :=
  match ls.token with
  | some s => .str s
  | none => .null

/-- The call `localStorage.getItem('user')`: the string or `null` (`none`). -/
def getItemUser (ls : LocalStorage) : Option Text :=
  ls.user

end LocalStorage

/-! ## The store -/

/-- The data of the store: `user`, `token`, `error`. -/
structure AuthState where
  user : JSVal
  token : JSVal
  error : JSVal

/-- The argument of zustand's `set`: the fields to replace. -/
structure Patch where
  user : Option JSVal := none
  token : Option JSVal := none
  error : Option JSVal := none

/-- Zustand's merge of a patch into the state. -/
def AuthState.merge (s : AuthState) (p : Patch) : AuthState :=
  { user := p.user.getD s.user
    token := p.token.getD s.token
    error := p.error.getD s.error }

/-- A file picked by the user. -/
structure File where
  name : String
  bytes : List Nat

/-- The body of a request. -/
inductive Body where
  | text (t : Option Text)
  | formData (entries : List (String × File))

/-- A request handed to `fetch`. -/
structure Request where
  url : String
  method : String
  headers : List (String × String)
  body : Body

/-- A response: its `ok` flag and what `response.json()` settles to. -/
structure Response where
  ok : Bool
  body : Except JSError JSVal

/-- An effect of an operation on its environment, in program order. -/
inductive Effect where
  | fetch (req : Request)
  | setItem (key : String)
  | removeItem (key : String)
  | set (patch : Patch)
  | consoleError (text : String)

/-- The store state, the storage and the log of effects so far. -/
structure World where
  state : AuthState
  localStorage : LocalStorage
  log : List Effect

/-- A computation: it ends in a value or a thrown error, and in a world. -/
def Op (α : Type) : Type :=
  World → Except JSError α × World

namespace Op

/-- Return of a value. -/
def ret {α : Type} (a : α) : Op α :=
  fun w => (.ok a, w)

/-- Sequencing; a thrown error skips the rest. -/
def andThen {α β : Type} (m : Op α) (f : α → Op β) : Op β :=
  fun w =>
    match m w with
    | (.ok a, w1) => f a w1
    | (.error e, w1) => (.error e, w1)

instance : Monad Op where
  pure := ret
  bind := andThen

/-- The statement `throw err`. -/
def throw {α : Type} (err : JSError) : Op α :=
  fun w => (.error err, w)

/-- The statement `try { body } catch (err) { handler }`. -/
def tryCatch {α : Type} (body : Op α) (handler : JSError → Op α) : Op α :=
  fun w =>
    match body w with
    | (.ok a, w1) => (.ok a, w1)
    | (.error e, w1) => handler e w1

/-- A value or a throw, from an `Except`. -/
def ofExcept {α : Type} : Except JSError α → Op α
  | .ok a => ret a
  | .error e => throw e

end Op

/-- Zustand's `set(patch)`. -/
def set (p : Patch) : Op Unit :=
  fun w => (.ok (), { w with state := w.state.merge p, log := w.log ++ [.set p] })

/-- Zustand's `get()`. -/
def get : Op AuthState :=
  fun w => (.ok w.state, w)

/-- The call `localStorage.setItem('token', value)`: the entry becomes `String(value)`. -/
def setItemToken (value : JSVal) : Op Unit :=
  fun w => (.ok (), { w with
    localStorage := { w.localStorage with token := some value.toStr }
    log := w.log ++ [.setItem "token"] })

/-- The call `localStorage.setItem('user', value)` on the result of
`JSON.stringify`: `undefined` is stored as the string `undefined`. -/
def setItemUser (value : Option Text) : Op Unit :=
  fun w => (.ok (), { w with
    localStorage := { w.localStorage with user := some (value.getD (.other "undefined")) }
    log := w.log ++ [.setItem "user"] })

/-- The call `localStorage.removeItem('token')`. -/
def removeItemToken : Op Unit :=
  fun w => (.ok (), { w with
    localStorage := { w.localStorage with token := none }
    log := w.log ++ [.removeItem "token"] })

/-- The call `localStorage.removeItem('user')`. -/
def removeItemUser : Op Unit :=
  fun w => (.ok (), { w with
    localStorage := { w.localStorage with user := none }
    log := w.log ++ [.removeItem "user"] })

/-- The call `await fetch(...)`: the request is issued, then the promise
settles as the network answers. -/
def fetch (req : Request) (net : Except JSError Response) : Op Response :=
  fun w => (net, { w with log := w.log ++ [.fetch req] })

/-- The call `await response.json()`. -/
def Response.json (r : Response) : Op JSVal :=
  Op.ofExcept r.body

/-- The call `console.error("Upload failed", error)`. -/
def consoleError (text : String) : Op Unit :=
  fun w => (.ok (), { w with log := w.log ++ [.consoleError text] })

/-- The initial state of the store, lines 5 to 7: `user` and `token` are read
from `localStorage`, `error` is `null`.  Creation throws when the `user` entry
is not JSON text. -/
def createStore (ls : LocalStorage) : Except JSError AuthState :=
  match JSON.parse ls.getItemUser with
  | .error e => .error e
  | .ok parsed =>
    .ok { user := parsed.or .null
          token := ls.getItemToken.or .null
          error := .null }

/-- The operation `login(email, password)`, lines 9 to 33. -/
def login (email password : String) (net : Except JSError Response) : Op Bool := do
  set { error := some .null }
  Op.tryCatch
    (do
      let response ← fetch
        { url := "/api/login"
          method := "POST"
          headers := [("Content-Type", "application/json")]
          body := .text (JSON.stringify
            (.obj [("email", .str email), ("password", .str password)])) }
        net
      let data ← response.json
      if !response.ok then
        let message ← Op.ofExcept (data.getProp "message")
        Op.throw ⟨(message.or (.str "Login failed due to an unknown error.")).toStr⟩
      else
        let token ← Op.ofExcept (data.getProp "token")
        setItemToken token
        let user ← Op.ofExcept (data.getProp "user")
        setItemUser (JSON.stringify user)
        let user2 ← Op.ofExcept (data.getProp "user")
        let token2 ← Op.ofExcept (data.getProp "token")
        set { user := some user2, token := some token2 }
        pure true)
    (fun err => do
      set { error := some (.str err.message) }
      pure false)

/-- The operation `signup(name, email, password)`, lines 35 to 53. -/
def signup (name email password : String) (net : Except JSError Response) : Op Bool := do
  set { error := some .null }
  Op.tryCatch
    (do
      let response ← fetch
        { url := "/api/signup"
          method := "POST"
          headers := [("Content-Type", "application/json")]
          body := .text (JSON.stringify
            (.obj [("name", .str name), ("email", .str email),
              ("password", .str password)])) }
        net
      let data ← response.json
      if !response.ok then
        let message ← Op.ofExcept (data.getProp "message")
        Op.throw ⟨(message.or (.str "Signup failed due to an unknown error.")).toStr⟩
      else
        pure true)
    (fun err => do
      set { error := some (.str err.message) }
      pure false)

/-- The operation `logout()`, lines 55 to 59. -/
def logout : Op Unit := do
  removeItemToken
  removeItemUser
  set { user := some .null, token := some .null }

/-- The operation `updateAvatar(file)`, lines 61 to 85.  The `try` block gives
`some true` when it returns and `none` when control falls out of it. -/
def updateAvatar (file : File) (net : Except JSError Response) : Op Bool := do
  let token := (← get).token
  let formData := [("image", file)]
  let returned ← Op.tryCatch
    (do
      let response ← fetch
        { url := "http://127.0.0.1:5000/api/upload_avatar"
          method := "POST"
          headers := [("Authorization", "Bearer " ++ token.toStr)]
          body := .formData formData }
        net
      let data ← response.json
      if response.ok then
        let user := (← get).user
        let url ← Op.ofExcept (data.getProp "url")
        let updatedUser := JSVal.obj (JSVal.setField "profile_pic" url user.spread)
        setItemUser (JSON.stringify updatedUser)
        set { user := some updatedUser }
        pure (some true)
      else
        pure none)
    (fun err => do
      consoleError ("Upload failed " ++ err.message)
      pure none)
  match returned with
  | some b => pure b
  | none => pure false

/-! ## The search effect of the top bar -/

/-- An entry of the song catalogue. -/
structure Song where
  id : Nat
  title : String
  artist : String
  cover : String

/-- The characters `String.prototype.trim` removes: WhiteSpace (tab, VT, FF,
the space separators, U+FEFF) and LineTerminator. -/
def isWhiteSpace (c : Char) : Bool :=
  let n := c.toNat
  n = 0x09 || n = 0x0A || n = 0x0B || n = 0x0C || n = 0x0D || n = 0x20 || n = 0xA0
    || n = 0x1680 || (0x2000 ≤ n && n ≤ 0x200A) || n = 0x2028 || n = 0x2029
    || n = 0x202F || n = 0x205F || n = 0x3000 || n = 0xFEFF

/-- The method `s.trim()`: white space is removed at both ends. -/
def trim (s : String) : String :=
  String.mk (((s.data.dropWhile isWhiteSpace).reverse.dropWhile isWhiteSpace).reverse)

/-- The part of the Unicode character database that `toLowerCase` reads:
`lower`, the simple lower-case mapping of one character, and `finalSigma`, the
Final_Sigma condition on the characters before and after a capital sigma (a
cased letter comes before, none follows, characters that case ignores being
skipped).  On ASCII the mapping is known: `A` to `Z` go to `a` to `z` and the
other characters stay. -/
structure CaseTable where
  lower : Char → Char
  finalSigma : List Char → List Char → Bool
  lower_ascii : ∀ c : Char, c.toNat < 128 → lower c = c.toLower

/-- GREEK CAPITAL LETTER SIGMA, U+03A3. -/
def capitalSigma : Char := Char.ofNat 0x03A3

/-- GREEK SMALL LETTER SIGMA, U+03C3. -/
def smallSigma : Char := Char.ofNat 0x03C3

/-- GREEK SMALL LETTER FINAL SIGMA, U+03C2. -/
def smallFinalSigma : Char := Char.ofNat 0x03C2

/-- LATIN CAPITAL LETTER I WITH DOT ABOVE, U+0130. -/
def capitalIDot : Char := Char.ofNat 0x0130

/-- COMBINING DOT ABOVE, U+0307. -/
def combiningDot : Char := Char.ofNat 0x0307

/-- The lower case of the characters `rest` that follow the characters
`before` in a string: a capital sigma becomes a final sigma where the
Final_Sigma condition holds and a small sigma elsewhere, a capital I with dot
above becomes `i` and a combining dot, every other character is mapped by
`lower`. -/
def lowerFrom (tbl : CaseTable) (before : List Char) : List Char → List Char
  | [] => []
  | c :: rest =>
    (if c = capitalSigma then
      (if tbl.finalSigma before rest then [smallFinalSigma] else [smallSigma])
    else if c = capitalIDot then
      ['i', combiningDot]
    else
      [tbl.lower c]) ++ lowerFrom tbl (before ++ [c]) rest

/-- The method `s.toLowerCase()`. -/
def toLowerCase (tbl : CaseTable) (s : String) : String :=
  String.mk (lowerFrom tbl [] s.data)

/-- The characters `needle` are found in `hay` at some position. -/
def includesChars (needle : List Char) : List Char → Bool
  | [] => needle.isPrefixOf []
  | c :: rest => needle.isPrefixOf (c :: rest) || includesChars needle rest

/-- The method `s.includes(t)`. -/
def includes (s t : String) : Bool :=
  includesChars t.data s.data

/-- The search effect of `Topbar`, lines 25 to 36: the new value of `results`
for the current `query` and `allSongs`. -/
def searchEffect (tbl : CaseTable) (allSongs : List Song) (query : String) : List Song :=
  if trim query = "" then
    []
  else
    let lowerQuery := toLowerCase tbl query
    allSongs.filter (fun song =>
      includes (toLowerCase tbl song.title) lowerQuery ||
      includes (toLowerCase tbl song.artist) lowerQuery)

/-! ## Names for what the operations do -/

/-- The request `login` issues. -/
def loginRequest (email password : String) : Request :=
  { url := "/api/login"
    method := "POST"
    headers := [("Content-Type", "application/json")]
    body := .text (JSON.stringify (.obj [("email", .str email), ("password", .str password)])) }

/-- The request `signup` issues. -/
def signupRequest (name email password : String) : Request :=
  { url := "/api/signup"
    method := "POST"
    headers := [("Content-Type", "application/json")]
    body := .text (JSON.stringify
      (.obj [("name", .str name), ("email", .str email), ("password", .str password)])) }

/-- The request `updateAvatar` issues when the store holds `token`. -/
def uploadRequest (token : JSVal) (file : File) : Request :=
  { url := "http://127.0.0.1:5000/api/upload_avatar"
    method := "POST"
    headers := [("Authorization", "Bearer " ++ token.toStr)]
    body := .formData [("image", file)] }

/-- The message of the error thrown in the `try` block of `login` or `signup`
up to and including the test of `response.ok`, if one is thrown; `fallback` is
the text used when the body has no usable `message`. -/
def thrownBeforeOk (fallback : String) : Except JSError Response → Option String
  | .error e => some e.message
  | .ok ⟨_, .error e⟩ => some e.message
  | .ok ⟨false, .ok data⟩ =>
    match data.getProp "message" with
    | .error e => some e.message
    | .ok message => some (message.or (.str fallback)).toStr
  | .ok ⟨true, .ok _⟩ => none

/-- The message of the error caught by `login`, if one is thrown. -/
def loginCaught : Except JSError Response → Option String
  | .ok ⟨true, .ok data⟩ =>
    match data.getProp "token" with
    | .error e => some e.message
    | .ok _ => none
  | net => thrownBeforeOk "Login failed due to an unknown error." net

/-- The world `login` and `signup` leave when an error with `message` is
caught: only `error` has changed, and one request was issued. -/
def afterCaught (w : World) (req : Request) (message : String) : World :=
  { state := { w.state with error := .str message }
    localStorage := w.localStorage
    log := w.log ++ [.set { error := some .null }, .fetch req,
      .set { error := some (.str message) }] }

/-- The world `login` leaves when the response is OK and its body `data`
has the properties `token` and `user` read as `tok` and `usr`. -/
def afterLogin (w : World) (req : Request) (tok usr : JSVal) : World :=
  { state := { user := usr, token := tok, error := .null }
    localStorage :=
      { token := some tok.toStr
        user := some ((JSON.stringify usr).getD (.other "undefined")) }
    log := w.log ++ [.set { error := some .null }, .fetch req, .setItem "token",
      .setItem "user", .set { user := some usr, token := some tok }] }

/-- The message of the error caught by `signup`, if one is thrown. -/
def signupCaught (net : Except JSError Response) : Option String :=
  thrownBeforeOk "Signup failed due to an unknown error." net

/-- The property `url` of the body when the upload is answered OK with a body
whose properties can be read; `none` in every other case. -/
def uploadAccepted : Except JSError Response → Option JSVal
  | .ok ⟨true, .ok data⟩ =>
    match data.getProp "url" with
    | .ok url => some url
    | .error _ => none
  | _ => none

/-- The effect logged by the `catch` block of `updateAvatar`, if an error is
thrown in its `try` block. -/
def uploadCaught : Except JSError Response → List Effect
  | .error e => [.consoleError ("Upload failed " ++ e.message)]
  | .ok ⟨_, .error e⟩ => [.consoleError ("Upload failed " ++ e.message)]
  | .ok ⟨true, .ok data⟩ =>
    match data.getProp "url" with
    | .ok _ => []
    | .error e => [.consoleError ("Upload failed " ++ e.message)]
  | .ok ⟨false, .ok _⟩ => []

/-- The profile `updateAvatar` builds from the current `user` and `url`. -/
def updatedUser (user url : JSVal) : JSVal :=
  .obj (JSVal.setField "profile_pic" url user.spread)

/-- The requests issued so far, oldest first. -/
def requests : List Effect → List Request
  | [] => []
  | .fetch req :: rest => req :: requests rest
  | _ :: rest => requests rest

/-- The answers of the network on which `login` fails: `fetch` rejects,
`response.json()` rejects, or the response is not OK. -/
def loginFails : Except JSError Response → Bool
  | .error _ => true
  | .ok ⟨_, .error _⟩ => true
  | .ok ⟨ok, .ok _⟩ => !ok

/-- A store with nobody logged in and an empty storage. -/
def anonymousWorld : World :=
  { state := { user := .null, token := .null, error := .null }
    localStorage := { token := none, user := none }
    log := [] }

/-- A picked file. -/
def somePicture : File :=
  { name := "me.png", bytes := [137, 80, 78, 71] }

/-- An upload answered OK with the path of the stored picture. -/
def uploadOk : Except JSError Response :=
  .ok { ok := true, body := .ok (.obj [("url", .str "/static/avatars/me.png")]) }

/-- A user profile, as the service returns it. -/
def adaProfile : List (String × JSVal) :=
  [("id", .num (.finite "7")), ("name", .str "Ada"), ("email", .str "ada@example.com")]

/-- A store holding the session of a logged-in user and a stale error. -/
def sessionWorld : World :=
  { state :=
      { user := .obj adaProfile
        token := .str "tok-7"
        error := .str "Login failed due to an unknown error." }
    localStorage :=
      { token := some "tok-7"
        user := some (.json (.obj adaProfile)) }
    log := [] }

/-- The body of an accepted login: a token and a user profile. -/
def loginBody : List (String × JSVal) :=
  [("token", .str "tok-7"), ("user", .obj adaProfile)]

/-- A login refused by the service with a reason. -/
def loginRefused : Except JSError Response :=
  .ok { ok := false, body := .ok (.obj [("message", .str "Invalid credentials")]) }

/-- A user profile whose `id` is `Infinity`, as `response.json()` reads the
JSON number `1e999`. -/
def infiniteIdProfile : List (String × JSVal) :=
  [("id", .num (.infinity false)), ("name", .str "Ada")]

/-- The body of a login answered OK with an empty token string. -/
def emptyTokenBody : List (String × JSVal) :=
  [("token", .str ""), ("user", .obj adaProfile)]

/-! ## Sequences of calls -/

/-- A call of one operation of the store, with the answer of the network. -/
inductive Call where
  | login (email password : String) (net : Except JSError Response)
  | signup (name email password : String) (net : Except JSError Response)
  | logout
  | updateAvatar (file : File) (net : Except JSError Response)

/-- The world a call leaves. -/
def Call.run : Call → World → World
  | .login email password net, w => (Rhymic.login email password net w).2
  | .signup name email password net, w => (Rhymic.signup name email password net w).2
  | .logout, w => (Rhymic.logout w).2
  | .updateAvatar file net, w => (Rhymic.updateAvatar file net w).2

/-- The in-memory `token` agrees with the `token` entry of storage: both
absent, or a string and the entry is that string. -/
def tokenAgrees (token : JSVal) (entry : Option String) : Prop :=
  match token with
  | .null => entry = none
  | .str t => entry = some t
  | _ => False

/-- The in-memory `user` agrees with the `user` entry of storage: both absent,
or the entry is the JSON serialisation of `user`. -/
def userAgrees (user : JSVal) (entry : Option Text) : Prop :=
  match user with
  | .null => entry = none
  | .undefined => False
  | u => entry = JSON.stringify u

/-- Memory and storage agree on `user` and on `token`. -/
def Agrees (w : World) : Prop :=
  userAgrees w.state.user w.localStorage.user ∧
    tokenAgrees w.state.token w.localStorage.token

/-- The effect writes to storage. -/
def Effect.isStorageWrite : Effect → Bool
  | .setItem _ => true
  | .removeItem _ => true
  | _ => false

/-- The effect is a `set` that replaces `user` or `token`. -/
def Effect.setsSession : Effect → Bool
  | .set p => p.user.isSome || p.token.isSome
  | _ => false

/-- In the effects `tr` of one operation no storage write comes after an
update of `user` or `token` in memory, and such an update comes with a storage
write: the writes precede the update. -/
def WritesPrecedeUpdate (tr : List Effect) : Prop :=
  tr.Pairwise (fun a b => a.setsSession = true → b.isStorageWrite = false) ∧
    ((∃ e ∈ tr, e.setsSession = true) → ∃ e ∈ tr, e.isStorageWrite = true)

/-- The body of a login answered OK carries a token string and a user that is
neither `null` nor `undefined`; every other call qualifies. -/
def Call.carriesTokenString : Call → Bool
  | .login _ _ (.ok ⟨true, .ok data⟩) =>
    match data.getProp "token", data.getProp "user" with
    | .ok (.str _), .ok usr => !usr.isNullish
    | _, _ => false
  | _ => true

/-- The body of a login answered OK carries a token and a user, neither of
them `null` or `undefined`; every other call qualifies. -/
def Call.carriesSession : Call → Bool
  | .login _ _ (.ok ⟨true, .ok data⟩) =>
    match data.getProp "token", data.getProp "user" with
    | .ok tok, .ok usr => !tok.isNullish && !usr.isNullish
    | _, _ => false
  | _ => true

/-- The call carries a session when it is an accepted login, and is not an
upload answered OK while the store holds no token. -/
def admissibleIn (w : World) (call : Call) : Bool :=
  call.carriesSession &&
    match call with
    | .updateAvatar _ net => !(uploadAccepted net).isSome || !w.state.token.isNullish
    | _ => true

/-- The worlds reached from an anonymous store (`user`, `token` and `error`
all `null`) by calls that `admissible` lets through. -/
inductive Reachable (admissible : World → Call → Bool) : World → Prop where
  | start (ls : LocalStorage) (log : List Effect) :
    Reachable admissible ⟨⟨.null, .null, .null⟩, ls, log⟩
  | step (w : World) (call : Call) :
    Reachable admissible w → admissible w call = true → Reachable admissible (call.run w)

/-- A login answered OK with an empty object as body. -/
def emptyBodyLogin : Call :=
  .login "ada@example.com" "pw" (.ok { ok := true, body := .ok (.obj []) })

/-- What a call does to `user` and `token`: it leaves both as they were, or it
is a login that leaves both present, or it is a logout that leaves both `null`,
or it is an upload that keeps the token and replaces a present user by that
user with `profile_pic` assigned. -/
def SetsOrClearsTogether (w : World) (call : Call) : Prop :=
  ((call.run w).state.user = w.state.user ∧ (call.run w).state.token = w.state.token) ∨
  ((∃ email password net, call = .login email password net) ∧
    (call.run w).state.user.isNullish = false ∧
    (call.run w).state.token.isNullish = false) ∨
  (call = .logout ∧ (call.run w).state.user = .null ∧ (call.run w).state.token = .null) ∨
  ((∃ file net, call = .updateAvatar file net) ∧
    (call.run w).state.token = w.state.token ∧
    w.state.user.isNullish = false ∧
    ∃ url, (call.run w).state.user
      = .obj (JSVal.setField "profile_pic" url w.state.user.spread))

/-! ## The search filter, as specified -/

/-- The code points of white space: tab, line feed, vertical tab, form feed,
carriage return, space, no-break space, the other space separators, the line
and paragraph separators, and the byte order mark. -/
def whiteSpaceCodePoints : List Nat :=
  [0x0009, 0x000A, 0x000B, 0x000C, 0x000D, 0x0020, 0x00A0, 0x1680,
   0x2000, 0x2001, 0x2002, 0x2003, 0x2004, 0x2005, 0x2006, 0x2007, 0x2008, 0x2009, 0x200A,
   0x2028, 0x2029, 0x202F, 0x205F, 0x3000, 0xFEFF]

/-- The query is empty or made of white space only. -/
def WhitespaceOnly (query : String) : Prop :=
  ∀ c ∈ query.data, c.toNat ∈ whiteSpaceCodePoints

instance (query : String) : Decidable (WhitespaceOnly query) := by
  unfold WhitespaceOnly
  infer_instance

/-- The text `text` contains `query` as a substring when case is ignored: some
run of consecutive characters of `text` has, character by character, the lower
case of `query`. -/
def ContainsIgnoringCase (tbl : CaseTable) (text query : String) : Prop :=
  ∃ pre mid post : List Char,
    text.data = pre ++ mid ++ post ∧ mid.map tbl.lower = query.data.map tbl.lower

/-- The title or the artist of `song` contains `query`, case ignored. -/
def MatchesQuery (tbl : CaseTable) (query : String) (song : Song) : Prop :=
  ContainsIgnoringCase tbl song.title query ∨ ContainsIgnoringCase tbl song.artist query

/-- The lower case of `text`, taken of the whole string, contains the lower
case of `query`, taken of the whole string. -/
def LoweredContains (tbl : CaseTable) (text query : String) : Prop :=
  ∃ pre post : List Char,
    (toLowerCase tbl text).data = pre ++ (toLowerCase tbl query).data ++ post

/-- The lower-cased title or the lower-cased artist of `song` contains the
lower-cased `query`. -/
def MatchesLowered (tbl : CaseTable) (query : String) (song : Song) : Prop :=
  LoweredContains tbl song.title query ∨ LoweredContains tbl song.artist query

/-- The string holds neither of the two characters whose lower case is not
taken character by character: capital sigma and capital I with dot above. -/
def PlainCase (s : String) : Prop :=
  ∀ c ∈ s.data, c ≠ capitalSigma ∧ c ≠ capitalIDot

/-- Title, artist and query are plain. -/
def PlainSearch (query : String) (song : Song) : Prop :=
  PlainCase song.title ∧ PlainCase song.artist ∧ PlainCase query

/-- The catalogue of the example. -/
def exampleCatalog : List Song :=
  [{ id := 1, title := "Love Song", artist := "A", cover := "/covers/1.jpg" },
   { id := 2, title := "X", artist := "Low", cover := "/covers/2.jpg" }]

/-- The character is a Greek capital letter, alpha to omega. -/
def isGreekCapital (c : Char) : Bool :=
  (0x0391 ≤ c.toNat && c.toNat ≤ 0x03A1) || (0x03A3 ≤ c.toNat && c.toNat ≤ 0x03A9)

/-- The character is a letter with case, among the ASCII and the Greek letters. -/
def isCasedSample (c : Char) : Bool :=
  c.isAlpha || isGreekCapital c || (0x03B1 ≤ c.toNat && c.toNat ≤ 0x03C9)

/-- The character is one that case ignores, among a few: apostrophe, full
stop, colon and the combining dot above. -/
def isCaseIgnorableSample (c : Char) : Bool :=
  c = Char.ofNat 0x27 || c = '.' || c = ':' || c = combiningDot

/-- The first character of `l` that case does not ignore is a cased letter. -/
def startsCasedSample : List Char → Bool
  | [] => false
  | c :: rest =>
    if isCaseIgnorableSample c then startsCasedSample rest else isCasedSample c

/-- A case table that agrees with the Unicode character database on the ASCII
and the Greek letters: the Greek capitals go to the small letters 32 code
points above, the ASCII capitals to the ASCII small letters, and Final_Sigma
holds when the nearest character before that case does not ignore is a cased
letter and the nearest one after is not. -/
def greekSample : CaseTable :=
  { lower := fun c => if isGreekCapital c then Char.ofNat (c.toNat + 32) else c.toLower
    finalSigma := fun before after =>
      startsCasedSample before.reverse && !startsCasedSample after
    lower_ascii := by
      intro c hc
      have h : isGreekCapital c = false := by
        simp only [isGreekCapital, Bool.or_eq_false_iff, Bool.and_eq_false_iff,
          decide_eq_false_iff_not]
        constructor <;> left <;> omega
      simp [h] }

/-- A song with a Greek title in capitals, ending in sigma. -/
def odos : Song :=
  { id := 3, title := "ΟΔΟΣ", artist := "Nikos", cover := "/covers/3.jpg" }

/-- The string of the one character capital sigma. -/
def sigmaQuery : String := String.mk [capitalSigma]

/-! ## What each operation does, by answer of the network -/

theorem getProp_of_not_nullish (data : JSVal) (key : String)
    (h : data.isNullish = false) :
    ∃ v, data.getProp key = .ok v := by
  cases data <;> simp [JSVal.getProp, JSVal.isNullish] at h ⊢

theorem not_nullish_of_getProp {data : JSVal} {key : String} {v : JSVal}
    (h : data.getProp key = .ok v) : data.isNullish = false := by
  cases data <;> simp [JSVal.getProp, JSVal.isNullish] at h ⊢

theorem login_caught (w : World) (email password : String)
    (net : Except JSError Response) (message : String)
    (h : loginCaught net = some message) :
    login email password net w
      = (.ok false, afterCaught w (loginRequest email password) message) := by
  rcases net with e | ⟨ok, e | data⟩
  · simp_all [loginCaught, thrownBeforeOk, afterCaught, loginRequest, login, Bind.bind,
      Op.andThen, Op.tryCatch, set, fetch, AuthState.merge, Pure.pure, Op.ret]
  · cases ok <;> simp_all [loginCaught, thrownBeforeOk, afterCaught, loginRequest, login,
      Bind.bind, Op.andThen, Op.tryCatch, set, fetch, AuthState.merge, Pure.pure, Op.ret,
      Response.json, Op.ofExcept, Op.throw]
  · cases ok
    · cases hm : data.getProp "message" <;>
        simp_all [loginCaught, thrownBeforeOk, afterCaught, loginRequest, login,
          Bind.bind, Op.andThen, Op.tryCatch, set, fetch, AuthState.merge, Pure.pure, Op.ret,
          Response.json, Op.ofExcept, Op.throw]
    · cases ht : data.getProp "token" <;>
        simp_all [loginCaught, thrownBeforeOk, afterCaught, loginRequest, login,
          Bind.bind, Op.andThen, Op.tryCatch, set, fetch, AuthState.merge, Pure.pure, Op.ret,
          Response.json, Op.ofExcept, Op.throw]

theorem login_accepted (w : World) (email password : String) (data tok usr : JSVal)
    (ht : data.getProp "token" = .ok tok) (hu : data.getProp "user" = .ok usr) :
    login email password (.ok ⟨true, .ok data⟩) w
      = (.ok true, afterLogin w (loginRequest email password) tok usr) := by
  simp [afterLogin, loginRequest, login, Bind.bind, Op.andThen, Op.tryCatch, set, fetch,
    AuthState.merge, Pure.pure, Op.ret, Response.json, Op.ofExcept, Op.throw, ht, hu,
    setItemToken, setItemUser]

theorem signup_caught (w : World) (name email password : String)
    (net : Except JSError Response) (message : String)
    (h : signupCaught net = some message) :
    signup name email password net w
      = (.ok false, afterCaught w (signupRequest name email password) message) := by
  rcases net with e | ⟨ok, e | data⟩
  · simp_all [signupCaught, thrownBeforeOk, afterCaught, signupRequest, signup, Bind.bind,
      Op.andThen, Op.tryCatch, set, fetch, AuthState.merge, Pure.pure, Op.ret]
  · cases ok <;> simp_all [signupCaught, thrownBeforeOk, afterCaught, signupRequest, signup,
      Bind.bind, Op.andThen, Op.tryCatch, set, fetch, AuthState.merge, Pure.pure, Op.ret,
      Response.json, Op.ofExcept, Op.throw]
  · cases ok
    · cases hm : data.getProp "message" <;>
        simp_all [signupCaught, thrownBeforeOk, afterCaught, signupRequest, signup,
          Bind.bind, Op.andThen, Op.tryCatch, set, fetch, AuthState.merge, Pure.pure, Op.ret,
          Response.json, Op.ofExcept, Op.throw]
    · simp [signupCaught, thrownBeforeOk] at h

theorem signup_accepted (w : World) (name email password : String)
    (net : Except JSError Response) (h : signupCaught net = none) :
    signup name email password net w
      = (.ok true,
          { state := { w.state with error := .null }
            localStorage := w.localStorage
            log := w.log ++ [.set { error := some .null },
              .fetch (signupRequest name email password)] }) := by
  rcases net with e | ⟨ok, e | data⟩
  · simp [signupCaught, thrownBeforeOk] at h
  · simp [signupCaught, thrownBeforeOk] at h
  · cases ok
    · cases hm : data.getProp "message" <;> simp [signupCaught, thrownBeforeOk, hm] at h
    · simp [signupRequest, signup, Bind.bind, Op.andThen, Op.tryCatch, set, fetch,
        AuthState.merge, Pure.pure, Op.ret, Response.json, Op.ofExcept, Op.throw]

theorem logout_run (w : World) :
    logout w
      = (.ok (),
          { state := { w.state with user := .null, token := .null }
            localStorage := { token := none, user := none }
            log := w.log ++ [.removeItem "token", .removeItem "user",
              .set { user := some .null, token := some .null }] }) := by
  simp [logout, Bind.bind, Op.andThen, set, removeItemToken, removeItemUser, AuthState.merge]

theorem updateAvatar_accepted (w : World) (file : File)
    (net : Except JSError Response) (url : JSVal) (h : uploadAccepted net = some url) :
    updateAvatar file net w
      = (.ok true,
          { state := { w.state with user := updatedUser w.state.user url }
            localStorage :=
              { w.localStorage with user := JSON.stringify (updatedUser w.state.user url) }
            log := w.log ++ [.fetch (uploadRequest w.state.token file), .setItem "user",
              .set { user := some (updatedUser w.state.user url) }] }) := by
  rcases net with e | ⟨ok, e | data⟩
  · simp [uploadAccepted] at h
  · simp [uploadAccepted] at h
  · cases ok
    · simp [uploadAccepted] at h
    · cases hu : data.getProp "url" <;> simp [uploadAccepted, hu] at h
      subst h
      simp [updatedUser, uploadRequest, updateAvatar, Bind.bind, Op.andThen, Op.tryCatch, set,
        get, fetch, AuthState.merge, Pure.pure, Op.ret, Response.json, Op.ofExcept, Op.throw,
        hu, setItemUser, JSON.stringify]

theorem updateAvatar_refused (w : World) (file : File)
    (net : Except JSError Response) (h : uploadAccepted net = none) :
    updateAvatar file net w
      = (.ok false,
          { w with log := w.log ++ .fetch (uploadRequest w.state.token file)
              :: uploadCaught net }) := by
  rcases net with e | ⟨ok, e | data⟩
  · simp [uploadCaught, uploadRequest, updateAvatar, Bind.bind, Op.andThen, Op.tryCatch,
      get, fetch, Pure.pure, Op.ret, consoleError]
  · simp [uploadCaught, uploadRequest, updateAvatar, Bind.bind, Op.andThen, Op.tryCatch,
      get, fetch, Pure.pure, Op.ret, consoleError, Response.json, Op.ofExcept, Op.throw]
  · cases ok
    · simp [uploadCaught, uploadRequest, updateAvatar, Bind.bind, Op.andThen, Op.tryCatch,
        get, fetch, Pure.pure, Op.ret, consoleError, Response.json, Op.ofExcept, Op.throw]
    · cases hu : data.getProp "url" <;> simp [uploadAccepted, hu] at h
      simp [uploadCaught, uploadRequest, updateAvatar, Bind.bind, Op.andThen, Op.tryCatch,
        get, fetch, Pure.pure, Op.ret, consoleError, Response.json, Op.ofExcept, Op.throw, hu]

theorem requests_append (l1 l2 : List Effect) :
    requests (l1 ++ l2) = requests l1 ++ requests l2 := by
  induction l1 with
  | nil => rfl
  | cons e rest ih => cases e <;> simp [requests, ih]

theorem loginCaught_of_loginFails (net : Except JSError Response)
    (h : loginFails net = true) : ∃ message, loginCaught net = some message := by
  rcases net with e | ⟨ok, e | data⟩
  · exact ⟨_, rfl⟩
  · cases ok <;> exact ⟨_, rfl⟩
  · cases ok
    · cases hm : data.getProp "message" <;> simp [loginCaught, thrownBeforeOk, hm]
    · simp [loginFails] at h

theorem lookup_setField_same (key : String) (v : JSVal) (fields : List (String × JSVal)) :
    JSVal.lookup key (JSVal.setField key v fields) = some v := by
  induction fields with
  | nil => simp [JSVal.setField, JSVal.lookup]
  | cons kv rest ih =>
    obtain ⟨k, w⟩ := kv
    by_cases hk : k = key <;> simp [JSVal.setField, JSVal.lookup, hk, ih]

theorem lookup_setField_other (key other : String) (v : JSVal)
    (fields : List (String × JSVal)) (h : other ≠ key) :
    JSVal.lookup other (JSVal.setField key v fields) = JSVal.lookup other fields := by
  induction fields with
  | nil => simp [JSVal.setField, JSVal.lookup, Ne.symm h]
  | cons kv rest ih =>
    obtain ⟨k, w⟩ := kv
    by_cases hk : k = key
    · subst hk
      simp [JSVal.setField, JSVal.lookup, Ne.symm h]
    · by_cases ho : k = other
      · subst ho
        simp [JSVal.setField, JSVal.lookup, hk]
      · simp [JSVal.setField, JSVal.lookup, hk, ho, ih]

/-- C1 as stated fails: in the anonymous store (token `null`), `updateAvatar`
issues its request and, the service answering OK, returns true. -/
theorem updateAvatar_absent_token_counterexample :
    ¬ ∀ (w : World) (file : File) (net : Except JSError Response),
      w.state.token.isNullish = true →
        (updateAvatar file net w).1 = .ok false ∧
        requests (updateAvatar file net w).2.log = requests w.log := by
  intro h
  have h1 := (h anonymousWorld somePicture uploadOk rfl).1
  rw [updateAvatar_accepted anonymousWorld somePicture uploadOk _ rfl] at h1
  simp at h1

/-- C1, amended: with the token absent `updateAvatar` still issues its one
upload request, the `Authorization` header built from the absent token; it
returns true when the service answers OK with a readable body, and otherwise
returns false and leaves state and storage as they were. -/
theorem updateAvatar_absent_token (w : World) (file : File)
    (net : Except JSError Response) (h : w.state.token.isNullish = true) :
    requests (updateAvatar file net w).2.log
        = requests w.log ++ [uploadRequest w.state.token file] ∧
      ((uploadRequest w.state.token file).headers = [("Authorization", "Bearer null")] ∨
        (uploadRequest w.state.token file).headers
          = [("Authorization", "Bearer undefined")]) ∧
      ((uploadAccepted net).isSome = true → (updateAvatar file net w).1 = .ok true) ∧
      ((uploadAccepted net).isSome = false →
        (updateAvatar file net w).1 = .ok false ∧
        (updateAvatar file net w).2.state = w.state ∧
        (updateAvatar file net w).2.localStorage = w.localStorage) := by
  refine ⟨?_, ?_, ?_, ?_⟩
  · cases hacc : uploadAccepted net with
    | none =>
      rw [updateAvatar_refused w file net hacc]
      rcases net with e | ⟨ok, e | data⟩
      · simp [requests_append, requests, uploadCaught]
      · simp [requests_append, requests, uploadCaught]
      · cases ok
        · simp [requests_append, requests, uploadCaught]
        · cases hu : data.getProp "url" <;>
            simp [requests_append, requests, uploadCaught, hu]
    | some url =>
      rw [updateAvatar_accepted w file net url hacc]
      simp [requests_append, requests]
  · cases ht : w.state.token <;> simp [ht, JSVal.isNullish] at h
    · right; simp [uploadRequest, ht, JSVal.toStr]
    · left; simp [uploadRequest, ht, JSVal.toStr]
  · intro hacc
    obtain ⟨url, hurl⟩ := Option.isSome_iff_exists.mp hacc
    rw [updateAvatar_accepted w file net url hurl]
  · intro hacc
    have hnone : uploadAccepted net = none := by
      cases hx : uploadAccepted net <;> simp [hx] at hacc ⊢
    rw [updateAvatar_refused w file net hnone]
    simp

theorem updateAvatar_absent_token_witness :
    requests (updateAvatar somePicture uploadOk anonymousWorld).2.log
        = requests anonymousWorld.log ++ [uploadRequest anonymousWorld.state.token somePicture] ∧
      ((uploadRequest anonymousWorld.state.token somePicture).headers
          = [("Authorization", "Bearer null")] ∨
        (uploadRequest anonymousWorld.state.token somePicture).headers
          = [("Authorization", "Bearer undefined")]) ∧
      ((uploadAccepted uploadOk).isSome = true →
        (updateAvatar somePicture uploadOk anonymousWorld).1 = .ok true) ∧
      ((uploadAccepted uploadOk).isSome = false →
        (updateAvatar somePicture uploadOk anonymousWorld).1 = .ok false ∧
        (updateAvatar somePicture uploadOk anonymousWorld).2.state = anonymousWorld.state ∧
        (updateAvatar somePicture uploadOk anonymousWorld).2.localStorage
          = anonymousWorld.localStorage) :=
  updateAvatar_absent_token anonymousWorld somePicture uploadOk rfl

/-! ## Login, logout, signup -/

/-- C2: when the service answers a login OK with a body carrying `token` and
`user`, `login` returns true and leaves `token` and `user` equal to the values
of the body and `error` absent, whatever the state before. -/
theorem login_accepted_sets_session (w : World) (email password : String)
    (fields : List (String × JSVal)) (tok usr : JSVal)
    (ht : JSVal.lookup "token" fields = some tok)
    (hu : JSVal.lookup "user" fields = some usr) :
    (login email password (.ok ⟨true, .ok (.obj fields)⟩) w).1 = .ok true ∧
      (login email password (.ok ⟨true, .ok (.obj fields)⟩) w).2.state.token = tok ∧
      (login email password (.ok ⟨true, .ok (.obj fields)⟩) w).2.state.user = usr ∧
      (login email password (.ok ⟨true, .ok (.obj fields)⟩) w).2.state.error = .null := by
  have h := login_accepted w email password (.obj fields) tok usr
    (by simp [JSVal.getProp, ht]) (by simp [JSVal.getProp, hu])
  rw [h]
  simp [afterLogin]

theorem login_accepted_sets_session_witness :
    (login "ada@example.com" "pw" (.ok ⟨true, .ok (.obj loginBody)⟩) sessionWorld).1
        = .ok true ∧
      (login "ada@example.com" "pw" (.ok ⟨true, .ok (.obj loginBody)⟩) sessionWorld).2.state.token
        = .str "tok-7" ∧
      (login "ada@example.com" "pw" (.ok ⟨true, .ok (.obj loginBody)⟩) sessionWorld).2.state.user
        = .obj adaProfile ∧
      (login "ada@example.com" "pw" (.ok ⟨true, .ok (.obj loginBody)⟩) sessionWorld).2.state.error
        = .null :=
  login_accepted_sets_session sessionWorld "ada@example.com" "pw" loginBody _ _ rfl rfl

/-- C3: when a login fails (the response is not OK, with or without a message,
or `fetch` or `response.json()` throws), `login` returns false, `error` is a
string afterwards, hence not absent, and `token` and `user`, in the store and
in storage, are what they were before the call. -/
theorem login_failed_keeps_session (w : World) (email password : String)
    (net : Except JSError Response) (h : loginFails net = true) :
    (login email password net w).1 = .ok false ∧
      (∃ message, (login email password net w).2.state.error = .str message) ∧
      (login email password net w).2.state.error.isNullish = false ∧
      (login email password net w).2.state.token = w.state.token ∧
      (login email password net w).2.state.user = w.state.user ∧
      (login email password net w).2.localStorage = w.localStorage := by
  obtain ⟨message, hm⟩ := loginCaught_of_loginFails net h
  rw [login_caught w email password net message hm]
  simp [afterCaught, JSVal.isNullish]

theorem login_failed_keeps_session_witness :
    (login "ada@example.com" "pw" loginRefused sessionWorld).1 = .ok false ∧
      (∃ message,
        (login "ada@example.com" "pw" loginRefused sessionWorld).2.state.error
          = .str message) ∧
      (login "ada@example.com" "pw" loginRefused sessionWorld).2.state.error.isNullish
        = false ∧
      (login "ada@example.com" "pw" loginRefused sessionWorld).2.state.token
        = sessionWorld.state.token ∧
      (login "ada@example.com" "pw" loginRefused sessionWorld).2.state.user
        = sessionWorld.state.user ∧
      (login "ada@example.com" "pw" loginRefused sessionWorld).2.localStorage
        = sessionWorld.localStorage :=
  login_failed_keeps_session sessionWorld "ada@example.com" "pw" loginRefused rfl

/-- C4 as stated fails: `logout` does not touch `error`, so a store holding an
error still holds it after `logout`. -/
theorem logout_error_counterexample :
    ¬ ∀ w : World,
      (logout (logout w).2).2.state = (logout w).2.state ∧
      (logout w).2.state.user = .null ∧
      (logout w).2.state.token = .null ∧
      (logout w).2.state.error = .null := by
  intro h
  have h1 := (h sessionWorld).2.2.2
  rw [logout_run] at h1
  simp [sessionWorld] at h1

/-- C4, amended: `logout` twice leaves the state and the storage that `logout`
once leaves; there `user` and `token` are absent, in the store and in storage,
and `error` is what it was before the call. -/
theorem logout_idempotent (w : World) :
    (logout (logout w).2).2.state = (logout w).2.state ∧
      (logout (logout w).2).2.localStorage = (logout w).2.localStorage ∧
      (logout w).2.state.user = .null ∧
      (logout w).2.state.token = .null ∧
      (logout w).2.state.error = w.state.error ∧
      (logout w).2.localStorage.token = none ∧
      (logout w).2.localStorage.user = none := by
  simp [logout_run]

/-- C7: whatever the service answers, `signup` leaves `user` and `token` as
they were, in the store and in storage. -/
theorem signup_keeps_session (w : World) (name email password : String)
    (net : Except JSError Response) :
    (signup name email password net w).2.state.user = w.state.user ∧
      (signup name email password net w).2.state.token = w.state.token ∧
      (signup name email password net w).2.localStorage = w.localStorage := by
  cases h : signupCaught net with
  | none => rw [signup_accepted w name email password net h]; simp
  | some message => rw [signup_caught w name email password net message h]; simp [afterCaught]

/-- C8: with a user profile in the store and the upload answered OK with
`url`, `updateAvatar` returns true; the new profile has `profile_pic` equal to
`url` and every other property as before; `token` and `error` are unchanged;
the `user` entry of storage is the serialisation of the new profile. -/
theorem updateAvatar_merges_profile_pic (w : World) (file : File)
    (profile body : List (String × JSVal)) (url : JSVal)
    (hu : w.state.user = .obj profile) (hurl : JSVal.lookup "url" body = some url) :
    (updateAvatar file (.ok ⟨true, .ok (.obj body)⟩) w).1 = .ok true ∧
      (∃ updated,
        (updateAvatar file (.ok ⟨true, .ok (.obj body)⟩) w).2.state.user = .obj updated ∧
        JSVal.lookup "profile_pic" updated = some url ∧
        (∀ key, key ≠ "profile_pic" → JSVal.lookup key updated = JSVal.lookup key profile) ∧
        (updateAvatar file (.ok ⟨true, .ok (.obj body)⟩) w).2.localStorage.user
          = JSON.stringify (.obj updated)) ∧
      (updateAvatar file (.ok ⟨true, .ok (.obj body)⟩) w).2.state.token = w.state.token ∧
      (updateAvatar file (.ok ⟨true, .ok (.obj body)⟩) w).2.state.error = w.state.error ∧
      (updateAvatar file (.ok ⟨true, .ok (.obj body)⟩) w).2.localStorage.token
        = w.localStorage.token := by
  have hacc : uploadAccepted (.ok ⟨true, .ok (.obj body)⟩) = some url := by
    simp [uploadAccepted, JSVal.getProp, hurl]
  rw [updateAvatar_accepted w file _ url hacc]
  refine ⟨rfl, ⟨JSVal.setField "profile_pic" url profile, ?_, ?_, ?_, ?_⟩, rfl, rfl, rfl⟩
  · simp [updatedUser, hu, JSVal.spread]
  · exact lookup_setField_same _ _ _
  · intro key hk
    exact lookup_setField_other _ _ _ _ hk
  · simp [updatedUser, hu, JSVal.spread]

theorem updateAvatar_merges_profile_pic_witness :
    (updateAvatar somePicture uploadOk sessionWorld).1 = .ok true ∧
      (∃ updated,
        (updateAvatar somePicture uploadOk sessionWorld).2.state.user = .obj updated ∧
        JSVal.lookup "profile_pic" updated = some (.str "/static/avatars/me.png") ∧
        (∀ key, key ≠ "profile_pic" → JSVal.lookup key updated
          = JSVal.lookup key adaProfile) ∧
        (updateAvatar somePicture uploadOk sessionWorld).2.localStorage.user
          = JSON.stringify (.obj updated)) ∧
      (updateAvatar somePicture uploadOk sessionWorld).2.state.token
        = sessionWorld.state.token ∧
      (updateAvatar somePicture uploadOk sessionWorld).2.state.error
        = sessionWorld.state.error ∧
      (updateAvatar somePicture uploadOk sessionWorld).2.localStorage.token
        = sessionWorld.localStorage.token :=
  updateAvatar_merges_profile_pic sessionWorld somePicture _ _ _ rfl rfl

/-! ## Storage and the store -/

mutual
theorem toJSON_of_isKept : ∀ v : JSVal, v.isKept = true → v.toJSON = v
  | .undefined, h => by simp [JSVal.isKept] at h
  | .null, _ => rfl
  | .bool _, _ => rfl
  | .num x, h => by
    cases x <;> simp [JSVal.isKept, JSNumber.isKept] at h
    rfl
  | .str _, _ => rfl
  | .arr items, h => by
    simp only [JSVal.isKept] at h
    simp [JSVal.toJSON, toJSONItems_of_isKept items h]
  | .obj fields, h => by
    simp only [JSVal.isKept] at h
    simp [JSVal.toJSON, toJSONFields_of_isKept fields h]
theorem toJSONItems_of_isKept :
    ∀ items : List JSVal, JSVal.isKeptItems items = true → JSVal.toJSONItems items = items
  | [], _ => rfl
  | v :: rest, h => by
    simp only [JSVal.isKeptItems, Bool.and_eq_true] at h
    have h1 := toJSON_of_isKept v h.1
    have h2 := toJSONItems_of_isKept rest h.2
    cases v <;> simp_all [JSVal.toJSONItems, JSVal.isKept]
theorem toJSONFields_of_isKept :
    ∀ fields : List (String × JSVal),
      JSVal.isKeptFields fields = true → JSVal.toJSONFields fields = fields
  | [], _ => rfl
  | (k, v) :: rest, h => by
    simp only [JSVal.isKeptFields, Bool.and_eq_true] at h
    have h1 := toJSON_of_isKept v h.1
    have h2 := toJSONFields_of_isKept rest h.2
    cases v <;> simp_all [JSVal.toJSONFields, JSVal.isKept]
end

/-- C6 as stated fails: after a login answered OK with the empty string as
token, the store holds the empty string and a store created from the storage
holds `null`. -/
theorem rehydrate_empty_token_counterexample :
    ¬ ∀ (w : World) (email password : String) (fields : List (String × JSVal))
        (tok : String) (profile : List (String × JSVal)),
      JSVal.lookup "token" fields = some (.str tok) →
      JSVal.lookup "user" fields = some (.obj profile) →
      (JSVal.obj profile).isJson = true →
        ∃ s, createStore (login email password (.ok ⟨true, .ok (.obj fields)⟩) w).2.localStorage
            = .ok s ∧
          s.user = (login email password (.ok ⟨true, .ok (.obj fields)⟩) w).2.state.user ∧
          s.token = (login email password (.ok ⟨true, .ok (.obj fields)⟩) w).2.state.token := by
  intro h
  obtain ⟨s, hs, -, ht⟩ :=
    h anonymousWorld "ada@example.com" "pw" emptyTokenBody "" adaProfile rfl rfl rfl
  have h1 : createStore (login "ada@example.com" "pw"
      (.ok ⟨true, .ok (.obj emptyTokenBody)⟩) anonymousWorld).2.localStorage
      = .ok ⟨.obj adaProfile, .null, .null⟩ := rfl
  have h2 : (login "ada@example.com" "pw"
      (.ok ⟨true, .ok (.obj emptyTokenBody)⟩) anonymousWorld).2.state.token = .str "" := rfl
  rw [h1] at hs
  rw [h2] at ht
  injection hs with hs
  subst hs
  simp at ht

/-- C6, amended: after a login answered OK with a non-empty token string and a
user profile that is a JSON object `JSON.stringify` writes without loss (no
number in it is infinite, NaN or negative zero, nothing in it is `undefined`),
a store created from the storage holds the same `user` and the same `token` as
the store the login left. -/
theorem rehydrate_after_login (w : World) (email password : String)
    (fields : List (String × JSVal)) (tok : String) (profile : List (String × JSVal))
    (ht : JSVal.lookup "token" fields = some (.str tok))
    (hu : JSVal.lookup "user" fields = some (.obj profile))
    (hj : (JSVal.obj profile).isKept = true) (hne : tok ≠ "") :
    (login email password (.ok ⟨true, .ok (.obj fields)⟩) w).1 = .ok true ∧
      ∃ s, createStore (login email password (.ok ⟨true, .ok (.obj fields)⟩) w).2.localStorage
          = .ok s ∧
        s.user = (login email password (.ok ⟨true, .ok (.obj fields)⟩) w).2.state.user ∧
        s.token = (login email password (.ok ⟨true, .ok (.obj fields)⟩) w).2.state.token ∧
        s.user = .obj profile ∧ s.token = .str tok := by
  have h := login_accepted w email password (.obj fields) (.str tok) (.obj profile)
    (by simp [JSVal.getProp, ht]) (by simp [JSVal.getProp, hu])
  rw [h]
  refine ⟨rfl, ⟨.obj profile, .str tok, .null⟩, ?_, rfl, rfl, rfl, rfl⟩
  simp [afterLogin, createStore, JSON.parse, JSON.stringify, LocalStorage.getItemUser,
    LocalStorage.getItemToken, JSVal.or, JSVal.truthy, JSVal.toStr, hne,
    toJSON_of_isKept _ hj]

theorem rehydrate_after_login_witness :
    (login "ada@example.com" "pw" (.ok ⟨true, .ok (.obj loginBody)⟩) anonymousWorld).1
        = .ok true ∧
      ∃ s, createStore
            (login "ada@example.com" "pw" (.ok ⟨true, .ok (.obj loginBody)⟩)
              anonymousWorld).2.localStorage
          = .ok s ∧
        s.user = (login "ada@example.com" "pw" (.ok ⟨true, .ok (.obj loginBody)⟩)
          anonymousWorld).2.state.user ∧
        s.token = (login "ada@example.com" "pw" (.ok ⟨true, .ok (.obj loginBody)⟩)
          anonymousWorld).2.state.token ∧
        s.user = .obj adaProfile ∧
        s.token = .str "tok-7" :=
  rehydrate_after_login anonymousWorld "ada@example.com" "pw" loginBody "tok-7" adaProfile
    rfl rfl rfl
    (by decide)

theorem rehydrate_infinite_number :
    (login "ada@example.com" "pw"
        (.ok ⟨true, .ok (.obj [("token", .str "t"), ("user", .obj infiniteIdProfile)])⟩)
        anonymousWorld).2.state.user
      = .obj [("id", .num (.infinity false)), ("name", .str "Ada")] ∧
    createStore (login "ada@example.com" "pw"
        (.ok ⟨true, .ok (.obj [("token", .str "t"), ("user", .obj infiniteIdProfile)])⟩)
        anonymousWorld).2.localStorage
      = .ok ⟨.obj [("id", .null), ("name", .str "Ada")], .str "t", .null⟩ :=
  ⟨rfl, rfl⟩

/-- C9 as stated fails: a login answered OK with a body that carries neither
token nor user leaves `undefined` in memory and the string `undefined` in
storage, from a store where memory and storage agreed. -/
theorem storage_agreement_counterexample :
    ¬ ∀ (w : World) (call : Call), Agrees w → Agrees (call.run w) := by
  intro h
  have h1 := (h anonymousWorld emptyBodyLogin ⟨rfl, rfl⟩).2
  have h2 : (emptyBodyLogin.run anonymousWorld).state.token = .undefined := rfl
  rw [h2] at h1
  exact h1

theorem login_preserves_agreement (w : World) (email password : String)
    (net : Except JSError Response)
    (hwf : (Call.login email password net).carriesTokenString = true) (h : Agrees w) :
    Agrees ((Call.login email password net).run w) ∧
      ∃ tr, ((Call.login email password net).run w).log = w.log ++ tr ∧
        WritesPrecedeUpdate tr := by
  cases hc : loginCaught net with
  | some message =>
    simp only [Call.run, login_caught w email password net message hc]
    refine ⟨h, _, rfl, ?_⟩
    simp [WritesPrecedeUpdate, Effect.setsSession, Effect.isStorageWrite]
  | none =>
    rcases net with e | ⟨ok, e | data⟩
    · simp [loginCaught, thrownBeforeOk] at hc
    · cases ok <;> simp [loginCaught, thrownBeforeOk] at hc
    · cases ok
      · cases hm : data.getProp "message" <;> simp [loginCaught, thrownBeforeOk, hm] at hc
      · simp only [Call.carriesTokenString] at hwf
        cases ht : data.getProp "token" with
        | error e => simp [ht] at hwf
        | ok tok =>
          cases hu : data.getProp "user" with
          | error e => cases tok <;> simp [ht, hu] at hwf
          | ok usr =>
            simp only [Call.run, login_accepted w email password data tok usr ht hu]
            refine ⟨?_, _, rfl, ?_⟩
            · cases tok <;> simp [ht, hu] at hwf
              cases usr <;> simp [JSVal.isNullish] at hwf <;>
                simp [Agrees, afterLogin, userAgrees, tokenAgrees, JSVal.toStr,
                  JSON.stringify]
            · simp [WritesPrecedeUpdate, Effect.setsSession, Effect.isStorageWrite]

/-- C9, amended: when the body of every login answered OK carries a token
string and a user, each of `login`, `signup`, `logout` and `updateAvatar`,
whatever the service answers, takes a store whose `user` and `token` agree with
the `user` and `token` entries of storage to one where they agree; and among
the effects of the call the storage writes come before the update of `user` or
`token` in memory. -/
theorem storage_agreement_preserved (w : World) (call : Call)
    (hwf : call.carriesTokenString = true) (h : Agrees w) :
    Agrees (call.run w) ∧
      ∃ tr, (call.run w).log = w.log ++ tr ∧ WritesPrecedeUpdate tr := by
  cases call with
  | login email password net => exact login_preserves_agreement w email password net hwf h
  | signup name email password net =>
    cases hc : signupCaught net with
    | none =>
      simp only [Call.run, signup_accepted w name email password net hc]
      refine ⟨h, _, rfl, ?_⟩
      simp [WritesPrecedeUpdate, Effect.setsSession, Effect.isStorageWrite]
    | some message =>
      simp only [Call.run, signup_caught w name email password net message hc]
      refine ⟨h, _, rfl, ?_⟩
      simp [WritesPrecedeUpdate, Effect.setsSession, Effect.isStorageWrite]
  | logout =>
    simp only [Call.run, logout_run]
    refine ⟨⟨rfl, rfl⟩, _, rfl, ?_⟩
    simp [WritesPrecedeUpdate, Effect.setsSession, Effect.isStorageWrite]
  | updateAvatar file net =>
    cases hacc : uploadAccepted net with
    | none =>
      simp only [Call.run, updateAvatar_refused w file net hacc]
      refine ⟨h, _, rfl, ?_⟩
      rcases net with e | ⟨ok, e | data⟩
      · simp [WritesPrecedeUpdate, Effect.setsSession, Effect.isStorageWrite, uploadCaught]
      · simp [WritesPrecedeUpdate, Effect.setsSession, Effect.isStorageWrite, uploadCaught]
      · cases ok
        · simp [WritesPrecedeUpdate, Effect.setsSession, Effect.isStorageWrite, uploadCaught]
        · cases hu : data.getProp "url" <;>
            simp [WritesPrecedeUpdate, Effect.setsSession, Effect.isStorageWrite,
              uploadCaught, hu]
    | some url =>
      simp only [Call.run, updateAvatar_accepted w file net url hacc]
      refine ⟨⟨?_, h.2⟩, _, rfl, ?_⟩
      · simp [userAgrees, updatedUser]
      · simp [WritesPrecedeUpdate, Effect.setsSession, Effect.isStorageWrite]

theorem storage_agreement_preserved_witness :
    Agrees ((Call.login "ada@example.com" "pw" (.ok ⟨true, .ok (.obj loginBody)⟩)).run
        anonymousWorld) ∧
      ∃ tr, ((Call.login "ada@example.com" "pw" (.ok ⟨true, .ok (.obj loginBody)⟩)).run
          anonymousWorld).log = anonymousWorld.log ++ tr ∧ WritesPrecedeUpdate tr :=
  storage_agreement_preserved anonymousWorld
    (Call.login "ada@example.com" "pw" (.ok ⟨true, .ok (.obj loginBody)⟩)) rfl ⟨rfl, rfl⟩

/-! ## The session invariant -/

theorem present_iff_step (w : World) (call : Call) (hadm : admissibleIn w call = true)
    (h : w.state.user.isNullish = w.state.token.isNullish) :
    (call.run w).state.user.isNullish = (call.run w).state.token.isNullish := by
  simp only [admissibleIn, Bool.and_eq_true] at hadm
  obtain ⟨hcs, hup⟩ := hadm
  cases call with
  | login email password net =>
    cases hc : loginCaught net with
    | some message =>
      simp only [Call.run, login_caught w email password net message hc]
      exact h
    | none =>
      rcases net with e | ⟨ok, e | data⟩
      · simp [loginCaught, thrownBeforeOk] at hc
      · cases ok <;> simp [loginCaught, thrownBeforeOk] at hc
      · cases ok
        · cases hm : data.getProp "message" <;> simp [loginCaught, thrownBeforeOk, hm] at hc
        · simp only [Call.carriesSession] at hcs
          cases ht : data.getProp "token" with
          | error e => simp [ht] at hcs
          | ok tok =>
            cases hu : data.getProp "user" with
            | error e => simp [ht, hu] at hcs
            | ok usr =>
              simp only [Call.run, login_accepted w email password data tok usr ht hu]
              simp [ht, hu] at hcs
              simp [afterLogin, hcs]
  | signup name email password net =>
    cases hc : signupCaught net with
    | none =>
      simp only [Call.run, signup_accepted w name email password net hc]
      exact h
    | some message =>
      simp only [Call.run, signup_caught w name email password net message hc]
      exact h
  | logout =>
    simp only [Call.run, logout_run]
  | updateAvatar file net =>
    cases hacc : uploadAccepted net with
    | none =>
      simp only [Call.run, updateAvatar_refused w file net hacc]
      exact h
    | some url =>
      simp only [Call.run, updateAvatar_accepted w file net url hacc]
      simp [hacc] at hup
      show (updatedUser w.state.user url).isNullish = w.state.token.isNullish
      rw [hup]
      rfl

/-- C10 as stated fails: from the anonymous store an upload answered OK puts a
user in the store while the token stays absent. -/
theorem session_invariant_counterexample :
    ¬ ∀ w : World, Reachable (fun _ call => call.carriesSession) w →
      (w.state.user.isNullish = false ↔ w.state.token.isNullish = false) := by
  intro h
  have hr : Reachable (fun _ call => call.carriesSession)
      ((Call.updateAvatar somePicture uploadOk).run anonymousWorld) :=
    Reachable.step anonymousWorld _ (Reachable.start _ _) rfl
  have h1 := (h _ hr).mp rfl
  have h2 : ((Call.updateAvatar somePicture uploadOk).run anonymousWorld).state.token
      = .null := rfl
  rw [h2] at h1
  simp [JSVal.isNullish] at h1

theorem reachable_present_iff (w : World) (h : Reachable admissibleIn w) :
    w.state.user.isNullish = w.state.token.isNullish := by
  induction h with
  | start ls log => rfl
  | step w call _ hadm ih => exact present_iff_step w call hadm ih

theorem step_sets_or_clears_together (w : World) (call : Call)
    (hadm : admissibleIn w call = true)
    (h : w.state.user.isNullish = w.state.token.isNullish) :
    SetsOrClearsTogether w call := by
  simp only [admissibleIn, Bool.and_eq_true] at hadm
  obtain ⟨hcs, hup⟩ := hadm
  cases call with
  | login email password net =>
    cases hc : loginCaught net with
    | some message =>
      left
      simp [Call.run, login_caught w email password net message hc, afterCaught]
    | none =>
      right; left
      rcases net with e | ⟨ok, e | data⟩
      · simp [loginCaught, thrownBeforeOk] at hc
      · cases ok <;> simp [loginCaught, thrownBeforeOk] at hc
      · cases ok
        · cases hm : data.getProp "message" <;> simp [loginCaught, thrownBeforeOk, hm] at hc
        · simp only [Call.carriesSession] at hcs
          cases ht : data.getProp "token" with
          | error e => simp [ht] at hcs
          | ok tok =>
            cases hu : data.getProp "user" with
            | error e => simp [ht, hu] at hcs
            | ok usr =>
              simp only [Call.run, login_accepted w email password data tok usr ht hu]
              simp [ht, hu] at hcs
              exact ⟨⟨_, _, _, rfl⟩, hcs.2, hcs.1⟩
  | signup name email password net =>
    left
    cases hc : signupCaught net with
    | none =>
      simp [Call.run, signup_accepted w name email password net hc]
    | some message =>
      simp [Call.run, signup_caught w name email password net message hc, afterCaught]
  | logout =>
    right; right; left
    simp [Call.run, logout_run]
  | updateAvatar file net =>
    cases hacc : uploadAccepted net with
    | none =>
      left
      simp [Call.run, updateAvatar_refused w file net hacc]
    | some url =>
      right; right; right
      simp [hacc] at hup
      refine ⟨⟨_, _, rfl⟩, ?_, h.trans hup, url, ?_⟩
      · simp [Call.run, updateAvatar_accepted w file net url hacc]
      · simp [Call.run, updateAvatar_accepted w file net url hacc, updatedUser]

/-- C10, amended: in every state reached from the anonymous store by calls of
`login`, `signup`, `logout` and `updateAvatar`, whatever the service answers
provided an accepted login carries a token and a user and no upload is
answered OK while the token is absent, `user` is present exactly when `token`
is; and each further such call leaves both as they were, or is a login leaving
both present, or a logout leaving both `null`, or an upload that keeps the
token and assigns `profile_pic` in a present user. -/
theorem session_invariant (w : World) (h : Reachable admissibleIn w) :
    (w.state.user.isNullish = false ↔ w.state.token.isNullish = false) ∧
      ∀ call, admissibleIn w call = true → SetsOrClearsTogether w call := by
  have hinv := reachable_present_iff w h
  refine ⟨by rw [hinv], ?_⟩
  intro call hadm
  exact step_sets_or_clears_together w call hadm hinv

theorem session_invariant_witness :
    (((Call.login "ada@example.com" "pw" (.ok ⟨true, .ok (.obj loginBody)⟩)).run
          anonymousWorld).state.user.isNullish = false ↔
        ((Call.login "ada@example.com" "pw" (.ok ⟨true, .ok (.obj loginBody)⟩)).run
          anonymousWorld).state.token.isNullish = false) ∧
      ∀ call,
        admissibleIn
            ((Call.login "ada@example.com" "pw" (.ok ⟨true, .ok (.obj loginBody)⟩)).run
              anonymousWorld) call = true →
          SetsOrClearsTogether
            ((Call.login "ada@example.com" "pw" (.ok ⟨true, .ok (.obj loginBody)⟩)).run
              anonymousWorld) call :=
  session_invariant _ (Reachable.step anonymousWorld
    (Call.login "ada@example.com" "pw" (.ok ⟨true, .ok (.obj loginBody)⟩))
    (Reachable.start _ _) rfl)

/-! ## The search filter -/

theorem includesChars_iff (needle hay : List Char) :
    includesChars needle hay = true ↔ needle <:+: hay := by
  induction hay with
  | nil => simp [includesChars, List.isPrefixOf_iff_prefix]
  | cons c rest ih =>
    simp [includesChars, List.isPrefixOf_iff_prefix, List.infix_cons_iff, ih]

theorem includes_iff (s t : String) :
    includes s t = true ↔ ∃ pre post : List Char, s.data = pre ++ t.data ++ post := by
  rw [includes, includesChars_iff]
  constructor
  · rintro ⟨pre, post, h⟩
    exact ⟨pre, post, h.symm⟩
  · rintro ⟨pre, post, h⟩
    exact ⟨pre, post, h.symm⟩

theorem dropWhile_both_ends_eq_nil (p : Char → Bool) (l : List Char) :
    ((l.dropWhile p).reverse.dropWhile p).reverse = [] ↔ l.all p = true := by
  constructor
  · intro h
    have h1 : (l.dropWhile p).reverse.dropWhile p = [] := List.reverse_eq_nil_iff.mp h
    have h2 : ∀ x ∈ l.dropWhile p, p x = true := by
      intro x hx
      exact List.dropWhile_eq_nil_iff.mp h1 x (List.mem_reverse.mpr hx)
    have h3 : l.dropWhile p = [] := by
      cases hd : l.dropWhile p with
      | nil => rfl
      | cons a rest =>
        have hne : l.dropWhile p ≠ [] := by simp [hd]
        have hnot := List.head_dropWhile_not p l hne
        have ha : p ((l.dropWhile p).head hne) = true := h2 _ (List.head_mem hne)
        simp [ha] at hnot
    simpa [List.all_eq_true] using List.dropWhile_eq_nil_iff.mp h3
  · intro h
    have h3 : l.dropWhile p = [] :=
      List.dropWhile_eq_nil_iff.mpr (by simpa [List.all_eq_true] using h)
    simp [h3]

theorem isWhiteSpace_iff (c : Char) :
    isWhiteSpace c = true ↔ c.toNat ∈ whiteSpaceCodePoints := by
  simp only [isWhiteSpace, whiteSpaceCodePoints, Bool.or_eq_true, Bool.and_eq_true,
    decide_eq_true_eq, List.mem_cons, List.mem_singleton, List.not_mem_nil, or_false]
  omega

theorem trim_eq_empty_iff (query : String) :
    trim query = "" ↔ WhitespaceOnly query := by
  have h : trim query = "" ↔ query.data.all isWhiteSpace = true := by
    rw [← dropWhile_both_ends_eq_nil]
    simp [trim, String.ext_iff]
  rw [h, List.all_eq_true]
  simp only [WhitespaceOnly, isWhiteSpace_iff]

theorem lowerFrom_of_plain (tbl : CaseTable) (l : List Char)
    (h : ∀ c ∈ l, c ≠ capitalSigma ∧ c ≠ capitalIDot) (before : List Char) :
    lowerFrom tbl before l = l.map tbl.lower := by
  induction l generalizing before with
  | nil => rfl
  | cons c rest ih =>
    have hc := h c (List.mem_cons_self c rest)
    have hrest : ∀ d ∈ rest, d ≠ capitalSigma ∧ d ≠ capitalIDot :=
      fun d hd => h d (List.mem_cons_of_mem c hd)
    simp [lowerFrom, hc.1, hc.2, ih hrest]

theorem toLowerCase_of_plain (tbl : CaseTable) (s : String) (h : PlainCase s) :
    (toLowerCase tbl s).data = s.data.map tbl.lower := by
  simp [toLowerCase, lowerFrom_of_plain tbl s.data h]

theorem toLowerCase_of_ascii (tbl : CaseTable) (s : String)
    (h : ∀ c ∈ s.data, c.toNat < 128) :
    toLowerCase tbl s = String.mk (s.data.map Char.toLower) := by
  have hplain : PlainCase s := by
    intro c hc
    have hlt := h c hc
    constructor
    · intro heq
      rw [heq] at hlt
      exact absurd hlt (by decide)
    · intro heq
      rw [heq] at hlt
      exact absurd hlt (by decide)
  have hd := toLowerCase_of_plain tbl s hplain
  have hmap : s.data.map tbl.lower = s.data.map Char.toLower :=
    List.map_congr_left (fun c hc => tbl.lower_ascii c (h c hc))
  rw [hmap] at hd
  exact String.ext hd

theorem loweredContains_iff_of_plain (tbl : CaseTable) (text query : String)
    (ht : PlainCase text) (hq : PlainCase query) :
    LoweredContains tbl text query ↔ ContainsIgnoringCase tbl text query := by
  simp only [LoweredContains, ContainsIgnoringCase, toLowerCase_of_plain tbl text ht,
    toLowerCase_of_plain tbl query hq]
  constructor
  · rintro ⟨l1, l2, h⟩
    obtain ⟨l3, post, h1, h2, h3⟩ := List.map_eq_append_iff.mp h
    obtain ⟨pre, mid, h4, h5, h6⟩ := List.map_eq_append_iff.mp h2
    exact ⟨pre, mid, post, by rw [h1, h4], h6⟩
  · rintro ⟨pre, mid, post, h1, h2⟩
    exact ⟨pre.map tbl.lower, post.map tbl.lower, by rw [h1, ← h2]; simp⟩

theorem searchEffect_of_ascii (tbl : CaseTable) (allSongs : List Song) (query : String)
    (hq : ∀ c ∈ query.data, c.toNat < 128)
    (hs : ∀ song ∈ allSongs,
      (∀ c ∈ song.title.data, c.toNat < 128) ∧ (∀ c ∈ song.artist.data, c.toNat < 128)) :
    searchEffect tbl allSongs query = searchEffect greekSample allSongs query := by
  unfold searchEffect
  split
  · rfl
  · simp only [toLowerCase_of_ascii _ query hq]
    apply List.filter_congr
    intro song hsong
    rw [toLowerCase_of_ascii tbl _ (hs song hsong).1, toLowerCase_of_ascii tbl _ (hs song hsong).2,
      toLowerCase_of_ascii greekSample _ (hs song hsong).1,
      toLowerCase_of_ascii greekSample _ (hs song hsong).2]

/-- C5 as stated fails: lower case is taken of the whole string, and a capital
sigma at the end of a word becomes a final sigma; the title of `odos` holds
the query, a capital sigma, as it stands, and the search returns nothing. -/
theorem search_final_sigma_counterexample :
    searchEffect greekSample [odos] sigmaQuery = [] ∧
      MatchesQuery greekSample sigmaQuery odos ∧
      ¬ WhitespaceOnly sigmaQuery ∧
      ¬ ∃ keep : Song → Bool,
        (∀ song, keep song = true ↔ MatchesQuery greekSample sigmaQuery song) ∧
        searchEffect greekSample [odos] sigmaQuery
          = if WhitespaceOnly sigmaQuery then [] else [odos].filter keep := by
  have hm : MatchesQuery greekSample sigmaQuery odos :=
    Or.inl ⟨[Char.ofNat 0x039F, Char.ofNat 0x0394, Char.ofNat 0x039F], [capitalSigma], [],
      rfl, rfl⟩
  have hw : ¬ WhitespaceOnly sigmaQuery := by decide
  refine ⟨rfl, hm, hw, ?_⟩
  rintro ⟨keep, hk, hs⟩
  have hkeep : keep odos = true := (hk odos).mpr hm
  have hnil : searchEffect greekSample [odos] sigmaQuery = [] := rfl
  rw [hnil, if_neg hw] at hs
  simp [List.filter, hkeep] at hs

/-- C5, amended: for every catalogue and every query the results of the search
are empty when the query is empty or made of white space only, and otherwise
are the entries of the catalogue, in the order of the catalogue, whose title or
artist, put in lower case as a whole string, contains the query put in lower
case as a whole string; when title, artist and query hold no capital sigma and
no capital I with dot above, these are the entries whose title or artist
contains the query as a substring, case ignored.  For the queries `lo` and `LO`
both entries of the example are results; for the empty query and for a query of
white space there are none. -/
theorem searchEffect_filters_catalog (tbl : CaseTable) (allSongs : List Song)
    (query : String) :
    (∃ keep : Song → Bool,
      (∀ song, keep song = true ↔ MatchesLowered tbl query song) ∧
      (∀ song, PlainSearch query song → (keep song = true ↔ MatchesQuery tbl query song)) ∧
      searchEffect tbl allSongs query
        = if WhitespaceOnly query then [] else allSongs.filter keep) ∧
    searchEffect tbl exampleCatalog "lo" = exampleCatalog ∧
    searchEffect tbl exampleCatalog "LO" = exampleCatalog ∧
    searchEffect tbl allSongs "" = [] ∧
    searchEffect tbl allSongs " \t\n" = [] := by
  have hkeep : ∀ song,
      (includes (toLowerCase tbl song.title) (toLowerCase tbl query) ||
        includes (toLowerCase tbl song.artist) (toLowerCase tbl query)) = true
        ↔ MatchesLowered tbl query song := by
    intro song
    simp [MatchesLowered, LoweredContains, includes_iff]
  refine ⟨⟨fun song =>
      includes (toLowerCase tbl song.title) (toLowerCase tbl query) ||
      includes (toLowerCase tbl song.artist) (toLowerCase tbl query), hkeep, ?_, ?_⟩,
    ?_, ?_, ?_, ?_⟩
  · intro song hplain
    rw [hkeep song, MatchesLowered, MatchesQuery,
      loweredContains_iff_of_plain tbl _ _ hplain.1 hplain.2.2,
      loweredContains_iff_of_plain tbl _ _ hplain.2.1 hplain.2.2]
  · by_cases h : WhitespaceOnly query
    · simp [searchEffect, (trim_eq_empty_iff query).mpr h, h]
    · have h2 : ¬ trim query = "" := fun ht => h ((trim_eq_empty_iff query).mp ht)
      simp [searchEffect, h2, h]
  · rw [searchEffect_of_ascii tbl exampleCatalog "lo" (by decide) (by decide)]
    rfl
  · rw [searchEffect_of_ascii tbl exampleCatalog "LO" (by decide) (by decide)]
    rfl
  · have h : trim "" = "" := rfl
    simp [searchEffect, h]
  · have h : trim " \t\n" = "" := rfl
    simp [searchEffect, h]

end Rhymic
